import Mathlib

/-!
Shallow embedding of the session-inspection script `src/check.py`.

The script reads a mozlz4 file, strips the 8-byte magic and the 4-byte
little-endian uncompressed-size header, decompresses the remaining payload,
parses the result as JSON and prints a per-window summary of the session.

JSON values produced by the parse are modelled by `JValue`; Python runtime
errors that the script can raise are modelled by `PyErr`; each `print` call
of the reporter is modelled by one `Line` value carrying the interpolated
data of the corresponding f-string (`renderLine` recovers the printed text).
The external routines `lz4.block.decompress` and `json.loads` are library
code, not part of this repository; the pipeline `runScript` therefore takes
them as oracle parameters.  Output is modelled as the list of lines printed
before the script either finishes or dies with an uncaught error.
-/

/-- JSON values as produced by `json.loads` (floats do not occur in the
claims and are not modelled; JSON numbers are integers here). -/
inductive JValue where
  | jnull
  | jbool (b : Bool)
  | jint (n : Int)
  | jstr (s : String)
  | jarr (xs : List JValue)
  | jobj (fields : List (String × JValue))
deriving Repr

/-- Python runtime errors the script can raise, plus the errors surfaced by
the external lz4 and json libraries. -/
inductive PyErr where
  | keyError (k : String)
  | indexError
  | typeError
  | attributeError
  | lz4Error
  | jsonError
deriving Repr, DecidableEq

/-- One `print` call of the reporter, carrying the values interpolated into
the f-string of that call. -/
inductive Line where
  | header (i : Nat)
  | groupsLine (s : String)
  | blank
  | tabLine (j : Nat) (group : String) (url : String)
  | totalLine (n : Nat)
deriving Repr, DecidableEq

/-- Truncation `s[:n]` of a Python string, as a character-list take. -/
def strTake (s : String) (n : Nat) : String :=
  String.mk (s.toList.take n)

/-- Dictionary key lookup (Python `dict` access on a parsed JSON object). -/
def lookupField (fs : List (String × JValue)) (k : String) : Option JValue :=
  List.lookup k fs

/-- Python truthiness of a parsed JSON value. -/
def pyTruthy : JValue → Bool
  | .jnull => false
  | .jbool b => b
  | .jint n => n != 0
  | .jstr s => s != ""
  | .jarr xs => !xs.isEmpty
  | .jobj fs => !fs.isEmpty

/-- Python `v.get(k)` / `v.get(k, default)` with the default handled by the
caller: raises `AttributeError` when `v` is not a dict. -/
def pyDictGet : JValue → String → Except PyErr (Option JValue)
  | .jobj fs, k => .ok (lookupField fs k)
  | _, _ => .error .attributeError

/-- Python `v - 1` for the values JSON can produce. -/
def pySub1 : JValue → Except PyErr Int
  | .jint n => .ok (n - 1)
  | .jbool b => .ok ((if b then 1 else 0) - 1)
  | _ => .error .typeError

/-- Python subscription `v[i]` with an integer index: list and string
indexing support negative indices counting from the end; a dict raises
`KeyError` (JSON object keys are strings); other values raise `TypeError`.
`pyNormIdx` is the normalisation that adds the length to a negative index. -/
def pyNormIdx (i : Int) (len : Nat) : Int :=
  if i < 0 then i + len else i

/-- Bracketed integer subscription `v[i]`, using `pyNormIdx`. -/
def pyIndex : JValue → Int → Except PyErr JValue
  | .jarr xs, i =>
    if pyNormIdx i xs.length < 0 then .error .indexError
    else
      match xs[(pyNormIdx i xs.length).toNat]? with
      | some v => .ok v
      | none => .error .indexError
  | .jstr s, i =>
    if pyNormIdx i s.toList.length < 0 then .error .indexError
    else
      match s.toList[(pyNormIdx i s.toList.length).toNat]? with
      | some c => .ok (.jstr (String.mk [c]))
      | none => .error .indexError
  | .jobj _, i => .error (.keyError (toString i))
  | _, _ => .error .typeError

/-- Python slice `v[:n]`: defined on strings and lists, `TypeError`
otherwise (slices are clamped and never raise an index error). -/
def pySliceUpTo : JValue → Nat → Except PyErr JValue
  | .jstr s, n => .ok (.jstr (strTake s n))
  | .jarr xs, n => .ok (.jarr (xs.take n))
  | _, _ => .error .typeError

/-- Python `len(v)`. -/
def pyLen : JValue → Except PyErr Nat
  | .jarr xs => .ok xs.length
  | .jstr s => .ok s.length
  | .jobj fs => .ok fs.length
  | _ => .error .typeError

/-- Python iteration over a value: lists yield elements, strings yield
single-character strings, dicts yield their keys; others raise `TypeError`. -/
def pyIter : JValue → Except PyErr (List JValue)
  | .jarr xs => .ok xs
  | .jstr s => .ok (s.toList.map fun c => .jstr (String.mk [c]))
  | .jobj fs => .ok (fs.map fun kv => .jstr kv.1)
  | _ => .error .typeError

/-- Python `str(v)` for a parsed JSON value is `v` itself for strings and
`repr(v)` for everything else; `pyRepr` below provides the repr. -/
def pyQuote : Char := Char.ofNat 39

/-- Escape one character for the Python string repr with quote `q`. -/
def pyEscChar (q : Char) (c : Char) : String :=
  if c = '\\' then "\\\\"
  else if c = q then "\\" ++ String.mk [q]
  else if c = '\n' then "\\n"
  else if c = '\r' then "\\r"
  else if c = '\t' then "\\t"
  else String.mk [c]

/-- Python `repr` of a string: single-quoted, unless the string contains a
single quote and no double quote, in which case it is double-quoted.
Escapes of unprintable characters beyond the common ones are not modelled
(no claim exercises them). -/
def pyStrRepr (s : String) : String :=
  if s.toList.contains pyQuote && !(s.toList.contains '"') then
    "\"" ++ String.join (s.toList.map (pyEscChar '"')) ++ "\""
  else
    String.mk [pyQuote] ++ String.join (s.toList.map (pyEscChar pyQuote)) ++ String.mk [pyQuote]

mutual

/-- Python `repr` of a parsed JSON value (`None`, `True`, `False`, ints,
quoted strings, bracketed lists, braced dicts). -/
def pyRepr : JValue → String
  | .jnull => "None"
  | .jbool true => "True"
  | .jbool false => "False"
  | .jint n => toString n
  | .jstr s => pyStrRepr s
  | .jarr xs => "[" ++ String.intercalate ", " (pyReprList xs) ++ "]"
  | .jobj fs => "\x7b" ++ String.intercalate ", " (pyReprFields fs) ++ "\x7d"

/-- Reprs of the elements of a list value. -/
def pyReprList : List JValue → List String
  | [] => []
  | x :: xs => pyRepr x :: pyReprList xs

/-- Reprs of the key/value pairs of a dict value. -/
def pyReprFields : List (String × JValue) → List String
  | [] => []
  | (k, v) :: fs => (pyStrRepr k ++ ": " ++ pyRepr v) :: pyReprFields fs

end

/-- Python `str(v)`: the string itself for strings, the repr otherwise. -/
def pyStr : JValue → String
  | .jstr s => s
  | v => pyRepr v

/-- Json escape of one character, following the default `json.dumps`
(`ensure_ascii=True`): control and non-ASCII characters become `\uXXXX`
escapes, astral characters become surrogate pairs. -/
def hexDigit (n : Nat) : Char :=
  if n < 10 then Char.ofNat (48 + n) else Char.ofNat (87 + n)

/-- Four-digit lowercase hex rendering used by the `\uXXXX` escapes. -/
def hex4 (n : Nat) : String :=
  String.mk [hexDigit (n / 4096 % 16), hexDigit (n / 256 % 16),
             hexDigit (n / 16 % 16), hexDigit (n % 16)]

/-- Escape one character inside a JSON string literal. -/
def jsonEscChar (c : Char) : String :=
  if c = '"' then "\\\""
  else if c = '\\' then "\\\\"
  else if c = '\n' then "\\n"
  else if c = '\r' then "\\r"
  else if c = '\t' then "\\t"
  else if c.toNat = 8 then "\\b"
  else if c.toNat = 12 then "\\f"
  else if c.toNat < 32 || c.toNat > 126 then
    if c.toNat ≥ 65536 then
      "\\u" ++ hex4 (55296 + (c.toNat - 65536) / 1024)
        ++ "\\u" ++ hex4 (56320 + (c.toNat - 65536) % 1024)
    else "\\u" ++ hex4 c.toNat
  else String.mk [c]

/-- Escape a whole string for a JSON string literal. -/
def jsonEsc (s : String) : String :=
  String.join (s.toList.map jsonEscChar)

/-- Indentation padding of `json.dumps(..., indent=2)`. -/
def spacesOf (d : Nat) : String := String.mk (List.replicate d ' ')

mutual

/-- Body of `json.dumps(v, indent=2)` at nesting depth `d` (depth counted
in spaces: children of a value at depth `d` are written at `d + 2`). -/
def dumpsV (d : Nat) : JValue → String
  | .jnull => "null"
  | .jbool true => "true"
  | .jbool false => "false"
  | .jint n => toString n
  | .jstr s => "\"" ++ jsonEsc s ++ "\""
  | .jarr [] => "[]"
  | .jarr (x :: xs) =>
    "[\n" ++ String.intercalate ",\n" (dumpsArr (d + 2) (x :: xs))
      ++ "\n" ++ spacesOf d ++ "]"
  | .jobj [] => "\x7b\x7d"
  | .jobj (f :: fs) =>
    "\x7b\n" ++ String.intercalate ",\n" (dumpsObj (d + 2) (f :: fs))
      ++ "\n" ++ spacesOf d ++ "\x7d"

/-- Indented renderings of the elements of an array. -/
def dumpsArr (d : Nat) : List JValue → List String
  | [] => []
  | x :: xs => (spacesOf d ++ dumpsV d x) :: dumpsArr d xs

/-- Indented renderings of the members of an object. -/
def dumpsObj (d : Nat) : List (String × JValue) → List String
  | [] => []
  | (k, v) :: fs =>
    (spacesOf d ++ "\"" ++ jsonEsc k ++ "\": " ++ dumpsV d v) :: dumpsObj d fs

end

/-- Python `json.dumps(v, indent=2)`. -/
def pyJsonDumps2 (v : JValue) : String := dumpsV 0 v

/-- Selection of the active entry:
`tab["entries"][tab["index"]-1] if tab.get("entries") else ` empty dict. -/
def activeEntry : JValue → Except PyErr JValue
  | .jobj fs =>
    match lookupField fs "entries" with
    | some ev =>
      if pyTruthy ev then
        match lookupField fs "index" with
        | some iv =>
          match pySub1 iv with
          | .error e => .error e
          | .ok i => pyIndex ev i
        | none => .error (.keyError "index")
      else .ok (.jobj [])
    | none => .ok (.jobj [])
  | _ => .error .attributeError

/-- One iteration of the tab loop: computes the active entry and the
interpolations of the per-tab print
(`group` repr with default `MISSING`, `url` truncated to 80 characters). -/
def tabLineOf (j : Nat) (tab : JValue) : Except PyErr Line :=
  match activeEntry tab with
  | .error e => .error e
  | .ok entry =>
    match pyDictGet tab "group" with
    | .error e => .error e
    | .ok g? =>
      match pyDictGet entry "url" with
      | .error e => .error e
      | .ok u? =>
        match pySliceUpTo (u?.getD (.jstr "")) 80 with
        | .error e => .error e
        | .ok sliced =>
          .ok (.tabLine j (pyRepr (g?.getD (.jstr "MISSING"))) (pyStr sliced))

/-- Tab lines printed by the loop over the (at most five) selected tabs,
paired with the error that aborted the loop, if any. -/
def emitTabs (j : Nat) : List JValue → List Line × Option PyErr
  | [] => ([], none)
  | t :: ts =>
    match tabLineOf j t with
    | .error e => ([], some e)
    | .ok l => (l :: (emitTabs (j + 1) ts).1, (emitTabs (j + 1) ts).2)

/-- The iterable of the tab loop, `win.get("tabs", [])[:5]`. -/
def winTabs (t? : Option JValue) : Except PyErr (List JValue) :=
  match pySliceUpTo (t?.getD (.jarr [])) 5 with
  | .error e => .error e
  | .ok sl => pyIter sl

/-- One window block of the report: header, truncated groups dump, blank
line, tab lines, total line — stopping at the first uncaught error. -/
def windowBlock (i : Nat) (win : JValue) : List Line × Option PyErr :=
  match pyDictGet win "groups" with
  | .error e => ([.header i], some e)
  | .ok g? =>
    let gl := Line.groupsLine (strTake (pyJsonDumps2 (g?.getD (.jarr []))) 2000)
    match pyDictGet win "tabs" with
    | .error e => ([.header i, gl, .blank], some e)
    | .ok t? =>
      match winTabs t? with
      | .error e => ([.header i, gl, .blank], some e)
      | .ok tabs =>
        match (emitTabs 0 tabs).2 with
        | some e => ([.header i, gl, .blank] ++ (emitTabs 0 tabs).1, some e)
        | none =>
          match pyLen (t?.getD (.jarr [])) with
          | .error e => ([.header i, gl, .blank] ++ (emitTabs 0 tabs).1, some e)
          | .ok n =>
            ([.header i, gl, .blank] ++ (emitTabs 0 tabs).1 ++ [.totalLine n], none)

/-- Window blocks of consecutive windows, stopping at the first error. -/
def emitWindows (i : Nat) : List JValue → List Line × Option PyErr
  | [] => ([], none)
  | w :: ws =>
    match (windowBlock i w).2 with
    | some e => ((windowBlock i w).1, some e)
    | none =>
      ((windowBlock i w).1 ++ (emitWindows (i + 1) ws).1, (emitWindows (i + 1) ws).2)

/-- The iterable of the window loop, `session.get("windows", [])`. -/
def sessionWindows (session : JValue) : Except PyErr (List JValue) :=
  match pyDictGet session "windows" with
  | .error e => .error e
  | .ok w? => pyIter (w?.getD (.jarr []))

/-- The whole report of one parsed session document. -/
def reportSession (session : JValue) : List Line × Option PyErr :=
  match sessionWindows session with
  | .error e => ([], some e)
  | .ok ws => emitWindows 0 ws

/-- Little-endian integer of a byte list, `int.from_bytes(b, "little")`. -/
def leBytes (bs : List Nat) : Nat :=
  bs.foldr (fun b acc => b + 256 * acc) 0

/-- Declared uncompressed size, `int.from_bytes(data[8:12], "little")`
(Python slices clamp, so fewer than four bytes may remain). -/
def frameSize (data : List Nat) : Nat :=
  leBytes ((data.drop 8).take 4)

/-- Compressed payload, `data[12:]` (empty when the buffer is shorter). -/
def framePayload (data : List Nat) : List Nat :=
  data.drop 12

/-- The whole script on a raw input buffer, with `lz4.block.decompress`
and `json.loads` supplied as oracles for the external libraries. -/
def runScript (decomp : List Nat → Nat → Except PyErr (List Nat))
    (parse : List Nat → Except PyErr JValue) (data : List Nat) :
    List Line × Option PyErr :=
  match decomp (framePayload data) (frameSize data) with
  | .error e => ([], some e)
  | .ok raw =>
    match parse raw with
    | .error e => ([], some e)
    | .ok session => reportSession session

/-- The text printed by one modelled print call. -/
def renderLine : Line → String
  | .header i => "=== Window " ++ toString i ++ " ==="
  | .groupsLine s => "Groups: " ++ s
  | .blank => ""
  | .tabLine j g u => "Tab " ++ toString j ++ ": group=" ++ g ++ ", url=" ++ u
  | .totalLine n => "... total " ++ toString n ++ " tabs"

/-- Recognises the window-delimiter line. -/
def isHeader : Line → Bool
  | .header _ => true
  | _ => false

/-- Recognises a per-tab line. -/
def isTabLine : Line → Bool
  | .tabLine _ _ _ => true
  | _ => false

/-- A successful tab-loop iteration always produces a per-tab line with the
ordinal it was given. -/
theorem tabLineOf_shape (j : Nat) (t : JValue) (l : Line)
    (h : tabLineOf j t = .ok l) : ∃ g u, l = .tabLine j g u := by
  unfold tabLineOf at h
  split at h
  · exact absurd h (by simp)
  · split at h
    · exact absurd h (by simp)
    · split at h
      · exact absurd h (by simp)
      · split at h
        · exact absurd h (by simp)
        · exact ⟨_, _, (Except.ok.injEq _ _ ▸ h).symm⟩

/-- When the tab loop finishes without an error it prints one line per
selected tab. -/
theorem emitTabs_length (j : Nat) (ts : List JValue)
    (h : (emitTabs j ts).2 = none) : (emitTabs j ts).1.length = ts.length := by
  induction ts generalizing j with
  | nil => simp [emitTabs]
  | cons t ts ih =>
    cases htl : tabLineOf j t with
    | error e => simp [emitTabs, htl] at h
    | ok l =>
      simp only [emitTabs, htl] at h ⊢
      simp only [List.length_cons]
      rw [ih _ h]

/-- Every line printed by the tab loop is a per-tab line. -/
theorem emitTabs_tabLine (j : Nat) (ts : List JValue) :
    ∀ l ∈ (emitTabs j ts).1, isTabLine l = true := by
  induction ts generalizing j with
  | nil => simp [emitTabs]
  | cons t ts ih =>
    cases htl : tabLineOf j t with
    | error e => simp [emitTabs, htl]
    | ok l =>
      simp only [emitTabs, htl, List.mem_cons]
      rintro x (rfl | hx)
      · obtain ⟨g, u, rfl⟩ := tabLineOf_shape j t x htl
        rfl
      · exact ih _ _ hx

/-- The tab loop prints no window-delimiter line. -/
theorem emitTabs_no_header (j : Nat) (ts : List JValue) :
    (emitTabs j ts).1.filter isHeader = [] := by
  rw [List.filter_eq_nil_iff]
  intro a ha
  have := emitTabs_tabLine j ts a ha
  cases a <;> simp_all [isTabLine, isHeader]

/-- Filtering the tab-loop output for per-tab lines keeps everything. -/
theorem emitTabs_filter_tabLine (j : Nat) (ts : List JValue) :
    (emitTabs j ts).1.filter isTabLine = (emitTabs j ts).1 := by
  rw [List.filter_eq_self]
  exact emitTabs_tabLine j ts

/-- A window block contains exactly one window-delimiter line, the one of
its own index, whether or not the block was cut short by an error. -/
theorem windowBlock_headers (i : Nat) (win : JValue) :
    (windowBlock i win).1.filter isHeader = [.header i] := by
  unfold windowBlock
  split
  · simp [isHeader]
  · split
    · simp [isHeader]
    · split
      · simp [isHeader]
      · split
        · simp [isHeader, List.filter_append, emitTabs_no_header]
        · split
          · simp [isHeader, List.filter_append, emitTabs_no_header]
          · simp [isHeader, List.filter_append, emitTabs_no_header]

/-- Structure of a window block that completed without an error: the groups
line, the tab-loop output and a final total line showing the length of the
`tabs` value of the window. -/
theorem windowBlock_ok (i : Nat) (win : JValue)
    (h : (windowBlock i win).2 = none) :
    ∃ g? t? tabs n,
      pyDictGet win "groups" = .ok g? ∧
      pyDictGet win "tabs" = .ok t? ∧
      winTabs t? = .ok tabs ∧
      (emitTabs 0 tabs).2 = none ∧
      pyLen (t?.getD (.jarr [])) = .ok n ∧
      (windowBlock i win).1 =
        [.header i, .groupsLine (strTake (pyJsonDumps2 (g?.getD (.jarr []))) 2000), .blank]
          ++ (emitTabs 0 tabs).1 ++ [.totalLine n] := by
  unfold windowBlock at h ⊢
  split at h
  · simp at h
  · split at h
    · simp at h
    · split at h
      · simp at h
      · split at h
        · simp at h
        · split at h
          · simp at h
          · exact ⟨_, _, _, _, by assumption, by assumption, by assumption,
              by assumption, by assumption, rfl⟩

/-- When the window loop finishes without an error, its window-delimiter
lines are exactly one per window, with consecutive indices in order. -/
theorem emitWindows_headers (ws : List JValue) (i : Nat)
    (h : (emitWindows i ws).2 = none) :
    (emitWindows i ws).1.filter isHeader = (List.range' i ws.length).map Line.header := by
  induction ws generalizing i with
  | nil => simp [emitWindows]
  | cons w ws ih =>
    cases hb : (windowBlock i w).2 with
    | some e => simp [emitWindows, hb] at h
    | none =>
      simp only [emitWindows, hb] at h ⊢
      rw [List.filter_append, windowBlock_headers, ih _ h,
        List.length_cons, List.range'_succ]
      rfl

/-- The active-entry selection only succeeds on a tab that is a dict. -/
theorem activeEntry_ok_dict (tab : JValue) (e : JValue)
    (h : activeEntry tab = .ok e) : ∃ fs, tab = .jobj fs := by
  cases tab <;> simp [activeEntry] at h
  exact ⟨_, rfl⟩

/-- When the active entry is a dict carrying a string `url`, the tab line
gets printed and its url is the 80-character truncation of that string. -/
theorem tabLineOf_url (j : Nat) (tab : JValue) (efs : List (String × JValue))
    (u : String) (hact : activeEntry tab = .ok (.jobj efs))
    (hurl : lookupField efs "url" = some (.jstr u)) :
    ∃ g, tabLineOf j tab = .ok (.tabLine j g (strTake u 80)) := by
  obtain ⟨fs, rfl⟩ := activeEntry_ok_dict tab _ hact
  refine ⟨pyRepr ((lookupField fs "group").getD (.jstr "MISSING")), ?_⟩
  simp [tabLineOf, hact, pyDictGet, hurl, pySliceUpTo, pyStr]

/-- C3: two buffers of length at least 12 that agree on bytes 8 onward and
differ only in the 8 magic bytes make the script behave identically: the
magic bytes are never read, so malformed magic alone cannot change the
output or cause a failure. -/
theorem c3_magic_never_read (d1 d2 : List Nat)
    (_h1 : 12 ≤ d1.length) (_h2 : 12 ≤ d2.length) (h : d1.drop 8 = d2.drop 8)
    (decomp : List Nat → Nat → Except PyErr (List Nat))
    (parse : List Nat → Except PyErr JValue) :
    runScript decomp parse d1 = runScript decomp parse d2 := by
  have hp : framePayload d1 = framePayload d2 := by
    unfold framePayload
    rw [show (12 : Nat) = 8 + 4 from rfl, ← List.drop_drop, ← List.drop_drop, h]
  have hs : frameSize d1 = frameSize d2 := by
    unfold frameSize
    rw [h]
  unfold runScript
  rw [hp, hs]

/-- C3 witness: two concrete 12-byte buffers differing exactly in their
magic bytes produce the same result. -/
theorem c3_magic_never_read_witness :
    runScript (fun p u => .ok (u :: p)) (fun _ => .ok (.jobj []))
        [1, 2, 3, 4, 5, 6, 7, 8, 9, 0, 0, 0]
      = runScript (fun p u => .ok (u :: p)) (fun _ => .ok (.jobj []))
        [8, 7, 6, 5, 4, 3, 2, 1, 9, 0, 0, 0] :=
  c3_magic_never_read _ _ (by decide) (by decide) rfl _ _

/-- C6: for a tab whose `entries` field is absent or the empty list, the
printed url is the empty string, whatever the `index` field holds. -/
theorem c6_empty_entries_empty_url (j : Nat) (fs : List (String × JValue))
    (h : lookupField fs "entries" = none ∨ lookupField fs "entries" = some (.jarr [])) :
    ∃ g, tabLineOf j (.jobj fs) = .ok (.tabLine j g "") := by
  have hact : activeEntry (.jobj fs) = .ok (.jobj []) := by
    rcases h with h | h <;> simp [activeEntry, h, pyTruthy]
  refine ⟨pyRepr ((lookupField fs "group").getD (.jstr "MISSING")), ?_⟩
  simp [tabLineOf, hact, pyDictGet, lookupField, pySliceUpTo, pyStr]
  rfl

/-- C6 witness: a tab with no fields at all prints the empty url. -/
theorem c6_empty_entries_empty_url_witness :
    ∃ g, tabLineOf 0 (.jobj []) = .ok (.tabLine 0 g "") :=
  c6_empty_entries_empty_url 0 [] (.inl rfl)

/-- C7: when the active entry carries a string `url`, the printed url is
exactly its first 80 characters (the whole string when shorter). -/
theorem c7_url_first_80 (j : Nat) (tab : JValue)
    (efs : List (String × JValue)) (u : String)
    (hact : activeEntry tab = .ok (.jobj efs))
    (hurl : lookupField efs "url" = some (.jstr u)) :
    ∃ g, tabLineOf j tab = .ok (.tabLine j g (strTake u 80)) :=
  tabLineOf_url j tab efs u hact hurl

/-- C7 witness: the specification example, a single entry whose url is
`https://example.com/` followed by 100 `x`, with `index = 1`; the printed
url is the first 80 characters of that url. -/
theorem c7_url_first_80_witness :
    ∃ g, tabLineOf 0 (.jobj [("entries",
        .jarr [.jobj [("url",
          .jstr ("https://example.com/" ++ String.mk (List.replicate 100 'x')))]]),
        ("index", .jint 1)])
      = .ok (.tabLine 0 g
          (strTake ("https://example.com/" ++ String.mk (List.replicate 100 'x')) 80)) :=
  c7_url_first_80 0 _ _ _ rfl rfl

/-- C8: a tab lacking a `group` field prints the marker `MISSING` in its
quoted debug representation. -/
theorem c8_missing_group_marker (j : Nat) (fs : List (String × JValue)) (l : Line)
    (hg : lookupField fs "group" = none)
    (hok : tabLineOf j (.jobj fs) = .ok l) :
    ∃ u, l = .tabLine j "\x27MISSING\x27" u := by
  simp only [tabLineOf, pyDictGet, hg] at hok
  split at hok
  · exact absurd hok (by simp)
  · split at hok
    · exact absurd hok (by simp)
    · split at hok
      · exact absurd hok (by simp)
      · rw [Except.ok.injEq] at hok
        subst hok
        exact ⟨_, by rw [show pyRepr ((none : Option JValue).getD (.jstr "MISSING"))
          = "\x27MISSING\x27" from by decide]⟩

/-- C8 witness: the empty tab dict prints the quoted `MISSING` marker. -/
theorem c8_missing_group_marker_witness :
    ∃ u, Line.tabLine 0 "\x27MISSING\x27" "" = .tabLine 0 "\x27MISSING\x27" u :=
  c8_missing_group_marker 0 [] (.tabLine 0 "\x27MISSING\x27" "") rfl rfl

/-- C9: with a non-empty `entries` list and `index = 0`, the selection
evaluates `entries[-1]` and silently yields the last history entry instead
of raising; the printed url then comes from that last entry. -/
theorem c9_index_zero_selects_last (fs : List (String × JValue))
    (es : List JValue) (e : JValue)
    (hes : lookupField fs "entries" = some (.jarr es))
    (hidx : lookupField fs "index" = some (.jint 0))
    (hlast : es.getLast? = some e) :
    activeEntry (.jobj fs) = .ok e ∧
    ∀ j efs u, e = .jobj efs → lookupField efs "url" = some (.jstr u) →
      ∃ g, tabLineOf j (.jobj fs) = .ok (.tabLine j g (strTake u 80)) := by
  have hne : es ≠ [] := by
    rintro rfl
    simp at hlast
  have hlen : 0 < es.length := List.length_pos.mpr hne
  have hact : activeEntry (.jobj fs) = .ok e := by
    simp only [activeEntry, hes, hidx, pyTruthy, List.isEmpty_eq_false.mpr hne,
      Bool.not_false, if_true, pySub1, pyIndex, pyNormIdx]
    rw [if_pos (by norm_num : (0 : Int) - 1 < 0)]
    rw [if_neg (show ¬((0 : Int) - 1 + es.length < 0) by omega)]
    rw [show ((0 : Int) - 1 + es.length).toNat = es.length - 1 from by omega]
    rw [List.getLast?_eq_getElem?] at hlast
    rw [hlast]
  refine ⟨hact, fun j efs u he hu => ?_⟩
  exact tabLineOf_url j _ efs u (he ▸ hact) hu

/-- C9 witness: two entries and `index = 0` select the second entry, and
its url is printed. -/
theorem c9_index_zero_selects_last_witness :
    activeEntry (.jobj [("entries",
        .jarr [.jobj [("url", .jstr "a")], .jobj [("url", .jstr "b")]]),
        ("index", .jint 0)]) = .ok (.jobj [("url", .jstr "b")]) ∧
    ∃ g, tabLineOf 0 (.jobj [("entries",
        .jarr [.jobj [("url", .jstr "a")], .jobj [("url", .jstr "b")]]),
        ("index", .jint 0)]) = .ok (.tabLine 0 g (strTake "b" 80)) := by
  have h := c9_index_zero_selects_last
    [("entries", .jarr [.jobj [("url", .jstr "a")], .jobj [("url", .jstr "b")]]),
     ("index", .jint 0)]
    [.jobj [("url", .jstr "a")], .jobj [("url", .jstr "b")]]
    (.jobj [("url", .jstr "b")]) rfl rfl rfl
  exact ⟨h.1, h.2 0 [("url", .jstr "b")] "b" rfl rfl⟩

/-- C10: optional container fields absent from the document count as empty,
never as an error: a session without `windows` prints nothing and finishes
cleanly, a window without `tabs` prints zero tab lines and a total of 0,
and a window without `groups` prints the empty-list rendering. -/
theorem c10_absent_fields_empty :
    (∀ fs, lookupField fs "windows" = none → reportSession (.jobj fs) = ([], none)) ∧
    (∀ i fs, lookupField fs "tabs" = none →
      ∃ gs, windowBlock i (.jobj fs) = ([.header i, .groupsLine gs, .blank, .totalLine 0], none)) ∧
    (∀ i fs, lookupField fs "groups" = none →
      (windowBlock i (.jobj fs)).1[1]? = some (.groupsLine "[]")) := by
  refine ⟨?_, ?_, ?_⟩
  · intro fs h
    simp [reportSession, sessionWindows, pyDictGet, h, pyIter, emitWindows]
  · intro i fs h
    refine ⟨strTake (pyJsonDumps2 ((lookupField fs "groups").getD (.jarr []))) 2000, ?_⟩
    simp [windowBlock, pyDictGet, h, winTabs, pySliceUpTo, pyIter, emitTabs, pyLen]
  · intro i fs h
    simp only [windowBlock, pyDictGet, h, Option.getD_none]
    rw [show strTake (pyJsonDumps2 (.jarr [])) 2000 = "[]" from by decide]
    split
    · rfl
    · split
      · rfl
      · split
        · rfl
        · rfl

/-- C10 witness: the empty session dict and the empty window dict exhibit
all three behaviors. -/
theorem c10_absent_fields_empty_witness :
    reportSession (.jobj []) = ([], none) ∧
    (∃ gs, windowBlock 0 (.jobj []) = ([.header 0, .groupsLine gs, .blank, .totalLine 0], none)) ∧
    (windowBlock 0 (.jobj [])).1[1]? = some (.groupsLine "[]") :=
  ⟨c10_absent_fields_empty.1 [] rfl,
   c10_absent_fields_empty.2.1 0 [] rfl,
   c10_absent_fields_empty.2.2 0 [] rfl⟩

/-- C1 counterexample: a tab with a non-empty two-element `entries` list
and `index = 0` does not fail at all — the selection `entries[0 - 1]` uses
negative indexing and returns the second (last) entry. -/
theorem c1_counterexample :
    activeEntry (.jobj [("entries",
        .jarr [.jobj [("url", .jstr "x")], .jobj [("url", .jstr "y")]]),
        ("index", .jint 0)])
      = .ok (.jobj [("url", .jstr "y")]) := rfl

/-- C1 amended: with a present non-empty `entries` list, the selection
fails with a key error when `index` is absent, and with an index error
exactly when `index` exceeds `len(entries)` or is at most `-len(entries)`;
every other integer `index` (zero included, via negative indexing) selects
an entry without error. -/
theorem c1_amended (fs : List (String × JValue)) (es : List JValue)
    (hes : lookupField fs "entries" = some (.jarr es)) (hne : es ≠ []) :
    (lookupField fs "index" = none →
      activeEntry (.jobj fs) = .error (.keyError "index")) ∧
    (∀ n : Int, lookupField fs "index" = some (.jint n) →
      (es.length : Int) < n ∨ n ≤ -(es.length : Int) →
      activeEntry (.jobj fs) = .error .indexError) ∧
    (∀ n : Int, lookupField fs "index" = some (.jint n) →
      1 - (es.length : Int) ≤ n → n ≤ (es.length : Int) →
      ∃ e, activeEntry (.jobj fs) = .ok e) := by
  have hL : 0 < es.length := List.length_pos.mpr hne
  have htru := List.isEmpty_eq_false.mpr hne
  refine ⟨?_, ?_, ?_⟩
  · intro h
    simp [activeEntry, hes, pyTruthy, htru, h]
  · intro n hn hout
    simp only [activeEntry, hes, pyTruthy, htru, Bool.not_false, if_true, hn, pySub1,
      pyIndex, pyNormIdx]
    by_cases hneg : (n - 1 : Int) < 0
    · rw [if_pos hneg]
      rcases hout with hgt | hle
      · exfalso
        omega
      · rw [if_pos (by omega)]
    · rw [if_neg hneg]
      rcases hout with hgt | hle
      · rw [if_neg (by omega), List.getElem?_eq_none (by omega)]
      · exfalso
        omega
  · intro n hn h1 h2
    simp only [activeEntry, hes, pyTruthy, htru, Bool.not_false, if_true, hn, pySub1,
      pyIndex, pyNormIdx]
    by_cases hneg : (n - 1 : Int) < 0
    · rw [if_pos hneg, if_neg (by omega), List.getElem?_eq_getElem (by omega)]
      exact ⟨_, rfl⟩
    · rw [if_neg hneg, if_neg (by omega), List.getElem?_eq_getElem (by omega)]
      exact ⟨_, rfl⟩

/-- C1 amended witness: a one-entry tab fails with a key error when `index`
is absent, fails with an index error at `index = 2`, and succeeds at
`index = 1`. -/
theorem c1_amended_witness :
    activeEntry (.jobj [("entries", .jarr [.jnull])]) = .error (.keyError "index") ∧
    activeEntry (.jobj [("entries", .jarr [.jnull]), ("index", .jint 2)])
      = .error .indexError ∧
    ∃ e, activeEntry (.jobj [("entries", .jarr [.jnull]), ("index", .jint 1)]) = .ok e :=
  ⟨(c1_amended [("entries", .jarr [.jnull])] [.jnull] rfl
      (List.cons_ne_nil _ _)).1 rfl,
   (c1_amended [("entries", .jarr [.jnull]), ("index", .jint 2)] [.jnull] rfl
      (List.cons_ne_nil _ _)).2.1 2 rfl (Or.inl (by norm_num)),
   (c1_amended [("entries", .jarr [.jnull]), ("index", .jint 1)] [.jnull] rfl
      (List.cons_ne_nil _ _)).2.2 1 rfl (by norm_num) (by norm_num)⟩

/-- C2 counterexample: on the 3-byte buffer `[1, 2, 3]` the slices are
clamped, not failing — the size field reads as 0, the payload as empty, and
the script reaches decompression and can even finish cleanly; no slicing
failure terminates it. -/
theorem c2_counterexample :
    frameSize [1, 2, 3] = 0 ∧ framePayload [1, 2, 3] = [] ∧
    runScript (fun _ _ => .ok []) (fun _ => .ok (.jobj [])) [1, 2, 3] = ([], none) :=
  ⟨rfl, rfl, rfl⟩

/-- C2 amended: Python slicing clamps, so a buffer shorter than 12 bytes
yields an empty payload and a size read from the at most three remaining
bytes (0 when the buffer has at most 8 bytes); the script proceeds into
decompression, and any failure on such input comes from the decompressor
(or a later stage), never from slicing. -/
theorem c2_amended (data : List Nat) (h : data.length < 12) :
    framePayload data = [] ∧
    frameSize data = leBytes (data.drop 8) ∧
    (data.length ≤ 8 → frameSize data = 0) ∧
    (∀ decomp parse e, decomp [] (frameSize data) = .error e →
      runScript decomp parse data = ([], some e)) := by
  have hp : framePayload data = [] :=
    List.drop_eq_nil_of_le (by omega)
  refine ⟨hp, ?_, ?_, ?_⟩
  · unfold frameSize
    rw [List.take_of_length_le (by rw [List.length_drop]; omega)]
  · intro h8
    unfold frameSize
    rw [List.drop_eq_nil_of_le h8]
    rfl
  · intro decomp parse e he
    unfold runScript
    rw [hp, he]

/-- C2 amended witness: on `[9, 9, 9]` with a failing decompressor the
script terminates with the decompression error, not a slicing failure. -/
theorem c2_amended_witness :
    runScript (fun _ _ => .error .lz4Error) (fun _ => .error .jsonError) [9, 9, 9]
      = ([], some .lz4Error) :=
  (c2_amended [9, 9, 9] (by norm_num)).2.2.2 _ _ _ rfl

/-- C4 counterexample: a well-formed frame (size field 1, one payload byte,
the oracles decompressing it to exactly that size and parsing it) whose
session has two windows, the first containing a tab with entries but no
`index`: the run dies on the key error after the first header, so only one
of the two windows gets a block. -/
theorem c4_counterexample :
    runScript (fun p u => if u = p.length then .ok p else .error .lz4Error)
      (fun r => if r = [42] then
        .ok (.jobj [("windows", .jarr [.jobj [("tabs",
          .jarr [.jobj [("entries", .jarr [.jobj [("url", .jstr "a")]])]])],
          .jobj []])])
        else .error .jsonError)
      [0, 0, 0, 0, 0, 0, 0, 0, 1, 0, 0, 0, 42]
      = ([.header 0, .groupsLine "[]", .blank], some (.keyError "index")) := by
  decide

/-- C4 amended: whenever the report runs to completion without an uncaught
error, it prints exactly one window block per element of the window list
of the session, in document order (the i-th block opens with the header of
index i). -/
theorem c4_amended (s : JValue) (ws : List JValue) (out : List Line)
    (hws : sessionWindows s = .ok ws)
    (hrun : reportSession s = (out, none)) :
    out.filter isHeader = (List.range ws.length).map Line.header := by
  unfold reportSession at hrun
  rw [hws] at hrun
  have hrun2 : emitWindows 0 ws = (out, none) := hrun
  have h2 : (emitWindows 0 ws).2 = none := by rw [hrun2]
  have h1 : (emitWindows 0 ws).1 = out := by rw [hrun2]
  rw [← h1, emitWindows_headers ws 0 h2, List.range_eq_range']

/-- C4 amended witness: a one-window session prints exactly one header. -/
theorem c4_amended_witness :
    ([Line.header 0, .groupsLine "[]", .blank, .totalLine 0] : List Line).filter isHeader
      = (List.range 1).map Line.header :=
  c4_amended (.jobj [("windows", .jarr [.jobj []])]) [.jobj []]
    [.header 0, .groupsLine "[]", .blank, .totalLine 0] rfl (by decide)

/-- C5 counterexample: a window whose single tab has `entries` of length 1
and `index = 5` prints zero tab lines (its length-1 tab list would demand
one) and no total line — the block dies on the index error. -/
theorem c5_counterexample :
    windowBlock 0 (.jobj [("tabs",
        .jarr [.jobj [("entries", .jarr [.jobj []]), ("index", .jint 5)]])])
      = ([.header 0, .groupsLine "[]", .blank], some .indexError) := by
  decide

/-- C5 amended: for a window whose block completes without an uncaught
error, the number of printed tab lines is the minimum of 5 and the length
of its `tabs` list, and the block ends with a total line showing the true
length of `tabs`. -/
theorem c5_amended (i : Nat) (win : JValue) (t? : Option JValue) (l : List JValue)
    (ht : pyDictGet win "tabs" = .ok t?)
    (hv : t?.getD (.jarr []) = .jarr l)
    (hok : (windowBlock i win).2 = none) :
    ((windowBlock i win).1.filter isTabLine).length = min 5 l.length ∧
    (windowBlock i win).1.getLast? = some (.totalLine l.length) := by
  obtain ⟨g?, t?2, tabs, n, _hg, ht2, hwt, hemit, hlen, hshape⟩ := windowBlock_ok i win hok
  rw [ht] at ht2
  rw [Except.ok.injEq] at ht2
  subst ht2
  simp only [winTabs] at hwt
  rw [hv] at hwt hlen
  simp only [pySliceUpTo, pyIter] at hwt
  rw [Except.ok.injEq] at hwt
  subst hwt
  simp only [pyLen] at hlen
  rw [Except.ok.injEq] at hlen
  subst hlen
  constructor
  · rw [hshape, List.filter_append, List.filter_append, emitTabs_filter_tabLine]
    simp only [List.length_append, emitTabs_length 0 _ hemit, List.length_take]
    simp [isTabLine]
  · rw [hshape, List.getLast?_concat]

/-- C5 amended witness: a window with one (field-less) tab prints one tab
line and the total 1. -/
theorem c5_amended_witness :
    ((windowBlock 0 (.jobj [("tabs", .jarr [.jobj []])])).1.filter isTabLine).length
        = min 5 1 ∧
    (windowBlock 0 (.jobj [("tabs", .jarr [.jobj []])])).1.getLast?
        = some (.totalLine 1) :=
  c5_amended 0 _ (some (.jarr [.jobj []])) [.jobj []] rfl rfl (by decide)
